import Mathlib

/-!
Shallow embedding of drivers/net/ethernet/freescale/adin_fixup.c: the
ADIN1300 PHY fixup handler, its RGMII mode programming, its override
lookup, and its clock configuration step.
-/

/-- Address of the extended register pointer register. -/
def ADIN1300_MII_EXT_REG_PTR : Nat := 0x0010

/-- Address of the extended register data register. -/
def ADIN1300_MII_EXT_REG_DATA : Nat := 0x0011

/-- Extended address of the clock configuration register. -/
def ADIN1300_GE_CLK_CFG : Nat := 0xff1f

/-- Clock recovery enable bit, BIT 5. -/
def ADIN1300_GE_CLK_RCVR_125_EN : Nat := 32

/-- Extended address of the RGMII configuration register. -/
def ADIN1300_GE_RGMII_CFG_REG : Nat := 0xff23

/-- RX delay enable bit, BIT 2. -/
def ADIN1300_GE_RGMII_RXID_EN : Nat := 4

/-- TX delay enable bit, BIT 1. -/
def ADIN1300_GE_RGMII_TXID_EN : Nat := 2

/-- RGMII enable bit, BIT 0. -/
def ADIN1300_GE_RGMII_EN : Nat := 1

/-- Modelled from the spec: the host phy_interface_t enumeration is not under
src (it lives in the host header). The spec says the handler cares about a
non RGMII mode and the four RGMII variants, with the RGMII variants forming
one consecutive range used by the membership test. -/
def PHY_INTERFACE_MODE_NA : Nat := 0

/-- Modelled from the spec: a non RGMII interface mode of the host table. -/
def PHY_INTERFACE_MODE_MII : Nat := 1

/-- Modelled from the spec: RGMII with no internal delay. -/
def PHY_INTERFACE_MODE_RGMII : Nat := 2

/-- Modelled from the spec: RGMII with both RX and TX internal delay. -/
def PHY_INTERFACE_MODE_RGMII_ID : Nat := 3

/-- Modelled from the spec: RGMII with RX internal delay only. -/
def PHY_INTERFACE_MODE_RGMII_RXID : Nat := 4

/-- Modelled from the spec: RGMII with TX internal delay only. -/
def PHY_INTERFACE_MODE_RGMII_TXID : Nat := 5

/-- Modelled from the spec: number of entries of the host mode table, the
bound of the override lookup loop. -/
def PHY_INTERFACE_MODE_MAX : Nat := 6

/-- Modelled from the spec: the host table of interface mode names, matched
case insensitively against the override property value. -/
def phy_modes_table : List String :=
  ["", "mii", "rgmii", "rgmii-id", "rgmii-rxid", "rgmii-txid"]

/-- Modelled from the spec: the host phy_modes lookup from a mode index to
its display name. -/
def phy_modes (i : Nat) : String := phy_modes_table.getD i "unknown"

/-- Modelled from the spec: ASCII lower casing of one character, as the C
strcasecmp does per byte. -/
def lowerChar (c : Char) : Char :=
  if 65 ≤ c.toNat ∧ c.toNat ≤ 90 then Char.ofNat (c.toNat + 32) else c

/-- Modelled from the spec: case insensitive string equality, that is the C
strcasecmp returning zero. -/
def strcaseEq (a b : String) : Bool :=
  a.data.map lowerChar == b.data.map lowerChar

/-- Device tree node properties the fixup reads. -/
structure DeviceNode where
  phyModeOverride : Option String
  clkRcvr125En : Bool

/-- The phy_device handle: the mutable interface mode field and the
configuration node. -/
structure PhyDevice where
  interface : Nat
  node : DeviceNode

/-- MDIO bus oracle. readRaw r is the raw int result of phy_read of the data
register after the pointer register was set to r; writeStatus r v is the
status of the corresponding data phy_write. -/
structure Bus where
  readRaw : Nat → Int
  writeStatus : Nat → Nat → Int

/-- Observable register traffic and diagnostics of one run. -/
inductive Ev where
  | readExt : Nat → Ev
  | writeExt : Nat → Nat → Ev
  | log : String → Ev
deriving DecidableEq

/-- adin_ext_read: set the pointer register to the extended address, read
the data register. The int result of phy_read is truncated to u16 by the
return type of the function. -/
def adin_ext_read (bus : Bus) (regnum : Nat) : Nat :=
  (bus.readRaw regnum % 65536).toNat

/-- adin_ext_write: set the pointer register, then write the 16 bit value to
the data register; returns the status of the data write. -/
def adin_ext_write (bus : Bus) (regnum : Nat) (val : Nat) : Int :=
  bus.writeStatus regnum (val % 65536)

/-- adin_get_phy_mode_override: read the override property and look its
value up in the mode name table; returns the matched index, a negative
errno when the property is absent, and minus ENODEV with a diagnostic when
present but unrecognized. -/
def adin_get_phy_mode_override (pd : PhyDevice) : Int × List Ev :=
  match pd.node.phyModeOverride with
  | none => ((-22 : Int), [])
  | some s =>
    match (List.range PHY_INTERFACE_MODE_MAX).find?
        (fun i => strcaseEq s (phy_modes i)) with
    | some i => ((i : Int), [])
    | none =>
      ((-19 : Int),
       [Ev.log ("adin_get_phy_mode_override: Error adi,phy-mode-override = "
                ++ s ++ " is not valid")])

/-- Membership of a bare mode index in the RGMII range. -/
def is_rgmii_mode (m : Nat) : Bool :=
  decide (PHY_INTERFACE_MODE_RGMII ≤ m ∧ m ≤ PHY_INTERFACE_MODE_RGMII_TXID)

/-- adin_phy_interface_is_rgmii: the interface mode of the handle lies in
the RGMII range. -/
def adin_phy_interface_is_rgmii (pd : PhyDevice) : Bool :=
  is_rgmii_mode pd.interface

/-- Result of a run: the returned status, the possibly updated device
handle, and the trace of register traffic and diagnostics. -/
structure RunResult where
  status : Int
  dev : PhyDevice
  events : List Ev

/-- adin_config_rgmii_mode: apply a valid override to the interface field,
read the RGMII config register, and program it according to the resolved
mode. -/
def adin_config_rgmii_mode (bus : Bus) (pd0 : PhyDevice) : RunResult :=
  let ov := adin_get_phy_mode_override pd0
  let pd := if ov.1 ≥ 0 then { pd0 with interface := ov.1.toNat } else pd0
  let reg : Int := ((adin_ext_read bus ADIN1300_GE_RGMII_CFG_REG : Nat) : Int)
  if reg < 0 then
    { status := reg, dev := pd,
      events := ov.2 ++ [Ev.readExt ADIN1300_GE_RGMII_CFG_REG] }
  else
    let r := reg.toNat
    if ¬ adin_phy_interface_is_rgmii pd then
      let r1 := r &&& (65535 ^^^ ADIN1300_GE_RGMII_EN)
      { status := adin_ext_write bus ADIN1300_GE_RGMII_CFG_REG r1,
        dev := pd,
        events := ov.2 ++ [Ev.readExt ADIN1300_GE_RGMII_CFG_REG,
                           Ev.writeExt ADIN1300_GE_RGMII_CFG_REG (r1 % 65536)] }
    else
      let r1 := r ||| ADIN1300_GE_RGMII_EN
      let r2 :=
        if pd.interface = PHY_INTERFACE_MODE_RGMII_ID ∨
            pd.interface = PHY_INTERFACE_MODE_RGMII_RXID then
          r1 ||| ADIN1300_GE_RGMII_RXID_EN
        else
          r1 &&& (65535 ^^^ ADIN1300_GE_RGMII_RXID_EN)
      let r3 :=
        if pd.interface = PHY_INTERFACE_MODE_RGMII_ID ∨
            pd.interface = PHY_INTERFACE_MODE_RGMII_TXID then
          r2 ||| ADIN1300_GE_RGMII_TXID_EN
        else
          r2 &&& (65535 ^^^ ADIN1300_GE_RGMII_TXID_EN)
      { status := adin_ext_write bus ADIN1300_GE_RGMII_CFG_REG r3,
        dev := pd,
        events := ov.2 ++ [Ev.readExt ADIN1300_GE_RGMII_CFG_REG,
                           Ev.writeExt ADIN1300_GE_RGMII_CFG_REG (r3 % 65536)] }

/-- adin_set_clock_config: when the boolean property is set, read the clock
register, set the enable bit and write it back, returning the write status;
otherwise do nothing and return 0. -/
def adin_set_clock_config (bus : Bus) (pd : PhyDevice) : Int × List Ev :=
  if pd.node.clkRcvr125En then
    let r := adin_ext_read bus ADIN1300_GE_CLK_CFG
    let r1 := r ||| ADIN1300_GE_CLK_RCVR_125_EN
    (adin_ext_write bus ADIN1300_GE_CLK_CFG r1,
     [Ev.log "adin_set_clock_config: Enabling 125 MHz clock out",
      Ev.readExt ADIN1300_GE_CLK_CFG,
      Ev.writeExt ADIN1300_GE_CLK_CFG (r1 % 65536)])
  else ((0 : Int), [])

/-- adin1300_phy_fixup: RGMII configuration, then clock configuration,
aborting on the first negative status. -/
def adin1300_phy_fixup (bus : Bus) (pd : PhyDevice) : RunResult :=
  let rr := adin_config_rgmii_mode bus pd
  if rr.status < 0 then rr
  else
    let ck := adin_set_clock_config bus rr.dev
    if ck.1 < 0 then
      { status := ck.1, dev := rr.dev, events := rr.events ++ ck.2 }
    else
      { status := 0, dev := rr.dev,
        events := rr.events ++ ck.2 ++
          [Ev.log ("adin1300_phy_fixup: PHY is using mode "
                   ++ phy_modes rr.dev.interface)] }

/-- Final resolved interface mode: the override index when the lookup
succeeded, the prior mode of the handle otherwise. -/
def resolvedInterface (pd : PhyDevice) : Nat :=
  let ov := adin_get_phy_mode_override pd
  if ov.1 ≥ 0 then ov.1.toNat else pd.interface

/-- Value programmed into the RGMII config register as a function of the
final resolved mode and the value read, following the spec description of
the RGMII programming step. -/
def rgmiiValueOfMode (mode r : Nat) : Nat :=
  if ¬ is_rgmii_mode mode then
    r &&& (65535 ^^^ ADIN1300_GE_RGMII_EN)
  else
    let r1 := r ||| ADIN1300_GE_RGMII_EN
    let r2 :=
      if mode = PHY_INTERFACE_MODE_RGMII_ID ∨
          mode = PHY_INTERFACE_MODE_RGMII_RXID then
        r1 ||| ADIN1300_GE_RGMII_RXID_EN
      else
        r1 &&& (65535 ^^^ ADIN1300_GE_RGMII_RXID_EN)
    if mode = PHY_INTERFACE_MODE_RGMII_ID ∨
        mode = PHY_INTERFACE_MODE_RGMII_TXID then
      r2 ||| ADIN1300_GE_RGMII_TXID_EN
    else
      r2 &&& (65535 ^^^ ADIN1300_GE_RGMII_TXID_EN)

/-- First value written to the given extended register in a trace. -/
def writtenTo (evs : List Ev) (regnum : Nat) : Option Nat :=
  evs.findSome? fun e =>
    match e with
    | Ev.writeExt r v => if r == regnum then some v else none
    | _ => none

def busZero : Bus := { readRaw := fun _ => 0, writeStatus := fun _ _ => 0 }

def pdRgmiiId : PhyDevice :=
  { interface := PHY_INTERFACE_MODE_RGMII_ID,
    node := { phyModeOverride := none, clkRcvr125En := false } }

def pdMode0 : PhyDevice :=
  { interface := 0, node := { phyModeOverride := none, clkRcvr125En := false } }

def busClkReadFail : Bus := { readRaw := fun _ => -5, writeStatus := fun _ _ => 0 }

def busClkWriteFail : Bus := { readRaw := fun _ => 0, writeStatus := fun _ _ => -5 }

def pdClkEn : PhyDevice :=
  { interface := PHY_INTERFACE_MODE_RGMII,
    node := { phyModeOverride := none, clkRcvr125En := true } }

def pdOverrideMii (origMode : Nat) : PhyDevice :=
  { interface := origMode,
    node := { phyModeOverride := some "mii", clkRcvr125En := false } }

def pdPrior2OverrideRgmiiId : PhyDevice :=
  { interface := PHY_INTERFACE_MODE_RGMII,
    node := { phyModeOverride := some "RGMII-ID", clkRcvr125En := false } }

def pdOverrideBogus : PhyDevice :=
  { interface := PHY_INTERFACE_MODE_RGMII_RXID,
    node := { phyModeOverride := some "bogus", clkRcvr125En := false } }


theorem config_run (bus : Bus) (pd : PhyDevice) :
    adin_config_rgmii_mode bus pd =
      { status := bus.writeStatus ADIN1300_GE_RGMII_CFG_REG
          (rgmiiValueOfMode (resolvedInterface pd)
            (adin_ext_read bus ADIN1300_GE_RGMII_CFG_REG) % 65536),
        dev := { interface := resolvedInterface pd, node := pd.node },
        events := (adin_get_phy_mode_override pd).2 ++
          [Ev.readExt ADIN1300_GE_RGMII_CFG_REG,
           Ev.writeExt ADIN1300_GE_RGMII_CFG_REG
             (rgmiiValueOfMode (resolvedInterface pd)
               (adin_ext_read bus ADIN1300_GE_RGMII_CFG_REG) % 65536)] } := by
  have h0 : ¬ ((((adin_ext_read bus ADIN1300_GE_RGMII_CFG_REG : Nat) : Int)) < 0) :=
    Int.not_lt.mpr (Int.natCast_nonneg _)
  unfold adin_config_rgmii_mode resolvedInterface rgmiiValueOfMode
    adin_phy_interface_is_rgmii adin_ext_write
  rw [if_neg h0]
  by_cases hov : (adin_get_phy_mode_override pd).1 ≥ 0 <;>
    simp only [hov, if_true, if_false, Int.toNat_natCast, ite_true, ite_false] <;>
    split <;>
    rfl

lemma override_events_no_write (pd : PhyDevice) (l : List Ev) (regnum : Nat) :
    writtenTo ((adin_get_phy_mode_override pd).2 ++ l) regnum = writtenTo l regnum := by
  unfold adin_get_phy_mode_override
  cases hp : pd.node.phyModeOverride with
  | none => simp [writtenTo]
  | some s =>
    cases hf : (List.range PHY_INTERFACE_MODE_MAX).find?
        (fun i => strcaseEq s (phy_modes i)) with
    | some i => simp [writtenTo, hf]
    | none => simp [writtenTo, hf, List.findSome?]

lemma config_dev_interface (bus : Bus) (pd : PhyDevice) :
    (adin_config_rgmii_mode bus pd).dev.interface = resolvedInterface pd := by
  rw [config_run]

lemma config_dev_node (bus : Bus) (pd : PhyDevice) :
    (adin_config_rgmii_mode bus pd).dev.node = pd.node := by
  rw [config_run]

lemma config_written (bus : Bus) (pd : PhyDevice) :
    writtenTo (adin_config_rgmii_mode bus pd).events ADIN1300_GE_RGMII_CFG_REG =
      some (rgmiiValueOfMode (resolvedInterface pd)
        (adin_ext_read bus ADIN1300_GE_RGMII_CFG_REG) % 65536) := by
  rw [config_run]
  show writtenTo ((adin_get_phy_mode_override pd).2 ++ _) _ = _
  rw [override_events_no_write]
  rfl

lemma config_status (bus : Bus) (pd : PhyDevice) :
    (adin_config_rgmii_mode bus pd).status =
      bus.writeStatus ADIN1300_GE_RGMII_CFG_REG
        (rgmiiValueOfMode (resolvedInterface pd)
          (adin_ext_read bus ADIN1300_GE_RGMII_CFG_REG) % 65536) := by
  rw [config_run]

lemma testBit_mod65536 (x k : Nat) (h : k < 16) : (x % 65536).testBit k = x.testBit k := by
  have h2 : (65536 : Nat) = 2 ^ 16 := by norm_num
  rw [h2, Nat.testBit_mod_two_pow]
  simp [h]

lemma testBit_mod65536_high (x k : Nat) (h : 16 ≤ k) : (x % 65536).testBit k = false := by
  have h2 : (65536 : Nat) = 2 ^ 16 := by norm_num
  rw [h2, Nat.testBit_mod_two_pow]
  simp
  omega

lemma mod_bits_one (X : Nat) (h : X.testBit 0 = true) : X % 65536 % 2 = 1 := by
  rw [Nat.mod_mod_of_dvd _ (by norm_num : (2:Nat) ∣ 65536)]
  simpa [Nat.testBit_zero] using h

/-- C1: for a resolved RGMII variant, the written RGMII config value has the
enable bit set and the delay bits of the table. -/
theorem c1_rgmii_delay_bits_match_table (bus : Bus) (pd : PhyDevice)
    (h : is_rgmii_mode (adin_config_rgmii_mode bus pd).dev.interface = true) :
    ∃ v, writtenTo (adin_config_rgmii_mode bus pd).events ADIN1300_GE_RGMII_CFG_REG = some v ∧
      v.testBit 0 = true ∧
      ((adin_config_rgmii_mode bus pd).dev.interface = PHY_INTERFACE_MODE_RGMII →
        v.testBit 2 = false ∧ v.testBit 1 = false) ∧
      ((adin_config_rgmii_mode bus pd).dev.interface = PHY_INTERFACE_MODE_RGMII_ID →
        v.testBit 2 = true ∧ v.testBit 1 = true) ∧
      ((adin_config_rgmii_mode bus pd).dev.interface = PHY_INTERFACE_MODE_RGMII_RXID →
        v.testBit 2 = true ∧ v.testBit 1 = false) ∧
      ((adin_config_rgmii_mode bus pd).dev.interface = PHY_INTERFACE_MODE_RGMII_TXID →
        v.testBit 2 = false ∧ v.testBit 1 = true) := by
  rw [config_dev_interface] at h ⊢
  refine ⟨_, config_written bus pd, ?_⟩
  set r := adin_ext_read bus ADIN1300_GE_RGMII_CFG_REG with hr
  set m := resolvedInterface pd with hm
  simp only [is_rgmii_mode, PHY_INTERFACE_MODE_RGMII, PHY_INTERFACE_MODE_RGMII_TXID,
    decide_eq_true_eq] at h
  obtain ⟨h1, h2⟩ := h
  have hx1 : (65535 ^^^ ADIN1300_GE_RGMII_EN : Nat) = 65534 := by decide
  have hx2 : (65535 ^^^ ADIN1300_GE_RGMII_TXID_EN : Nat) = 65533 := by decide
  have hx4 : (65535 ^^^ ADIN1300_GE_RGMII_RXID_EN : Nat) = 65531 := by decide
  interval_cases m <;>
    simp [rgmiiValueOfMode, is_rgmii_mode, hx1, hx2, hx4,
      PHY_INTERFACE_MODE_RGMII, PHY_INTERFACE_MODE_RGMII_ID,
      PHY_INTERFACE_MODE_RGMII_RXID, PHY_INTERFACE_MODE_RGMII_TXID,
      ADIN1300_GE_RGMII_EN, ADIN1300_GE_RGMII_RXID_EN, ADIN1300_GE_RGMII_TXID_EN,
      testBit_mod65536, Nat.testBit_lor, Nat.testBit_land,
      show Nat.testBit 1 0 = true from by decide,
      show Nat.testBit 1 1 = false from by decide,
      show Nat.testBit 1 2 = false from by decide,
      show Nat.testBit 2 0 = false from by decide,
      show Nat.testBit 2 1 = true from by decide,
      show Nat.testBit 2 2 = false from by decide,
      show Nat.testBit 4 0 = false from by decide,
      show Nat.testBit 4 1 = false from by decide,
      show Nat.testBit 4 2 = true from by decide,
      show Nat.testBit 65531 0 = true from by decide,
      show Nat.testBit 65531 1 = true from by decide,
      show Nat.testBit 65531 2 = false from by decide,
      show Nat.testBit 65533 0 = true from by decide,
      show Nat.testBit 65533 1 = false from by decide,
      show Nat.testBit 65533 2 = true from by decide] <;>
    (apply mod_bits_one
     simp only [Nat.testBit_lor, Nat.testBit_land,
       show Nat.testBit 1 0 = true from by decide,
       show Nat.testBit 2 0 = false from by decide,
       show Nat.testBit 4 0 = false from by decide,
       show Nat.testBit 65531 0 = true from by decide,
       show Nat.testBit 65533 0 = true from by decide,
       Bool.or_true, Bool.or_false, Bool.and_true, Bool.true_and])

lemma adin_ext_read_lt (bus : Bus) (regnum : Nat) : adin_ext_read bus regnum < 65536 := by
  unfold adin_ext_read
  omega




/-- C5: for a resolved non RGMII mode the written value clears only the
enable bit and preserves every other bit of the value read. -/
theorem c5_non_rgmii_clears_enable_only (bus : Bus) (pd : PhyDevice)
    (h : is_rgmii_mode (adin_config_rgmii_mode bus pd).dev.interface = false) :
    ∃ v, writtenTo (adin_config_rgmii_mode bus pd).events ADIN1300_GE_RGMII_CFG_REG = some v ∧
      v.testBit 0 = false ∧
      ∀ k, k ≠ 0 →
        v.testBit k = (adin_ext_read bus ADIN1300_GE_RGMII_CFG_REG).testBit k := by
  rw [config_dev_interface] at h
  refine ⟨_, config_written bus pd, ?_, ?_⟩
  · have hval : rgmiiValueOfMode (resolvedInterface pd)
        (adin_ext_read bus ADIN1300_GE_RGMII_CFG_REG) =
        adin_ext_read bus ADIN1300_GE_RGMII_CFG_REG &&& 65534 := by
      simp [rgmiiValueOfMode, h, ADIN1300_GE_RGMII_EN,
        show (65535 ^^^ 1 : Nat) = 65534 from by decide]
    rw [hval, testBit_mod65536 _ _ (by norm_num)]
    simp [Nat.testBit_land, show Nat.testBit 65534 0 = false from by decide]
  · intro k hk
    have hval : rgmiiValueOfMode (resolvedInterface pd)
        (adin_ext_read bus ADIN1300_GE_RGMII_CFG_REG) =
        adin_ext_read bus ADIN1300_GE_RGMII_CFG_REG &&& 65534 := by
      simp [rgmiiValueOfMode, h, ADIN1300_GE_RGMII_EN,
        show (65535 ^^^ 1 : Nat) = 65534 from by decide]
    rw [hval]
    rcases lt_or_ge k 16 with hk16 | hk16
    · rw [testBit_mod65536 _ _ hk16]
      have hm : Nat.testBit 65534 k = true := by
        have hall : ∀ j, j < 16 → j ≠ 0 → Nat.testBit 65534 j = true := by decide
        exact hall k hk16 hk
      simp [Nat.testBit_land, hm]
    · rw [testBit_mod65536_high _ _ hk16]
      have hr : adin_ext_read bus ADIN1300_GE_RGMII_CFG_REG < 2 ^ k := by
        calc adin_ext_read bus ADIN1300_GE_RGMII_CFG_REG < 65536 := adin_ext_read_lt _ _
          _ = 2 ^ 16 := by norm_num
          _ ≤ 2 ^ k := Nat.pow_le_pow_right (by norm_num) hk16
      exact (Nat.testBit_lt_two_pow hr).symm

/-- C8: the RGMII register write always reflects the final resolved mode:
the updated handle carries the resolved mode and the written value is a
function of that mode and the value read only. -/
theorem c8_write_reflects_resolved_mode (bus : Bus) (pd : PhyDevice) :
    (adin_config_rgmii_mode bus pd).dev.interface = resolvedInterface pd ∧
    writtenTo (adin_config_rgmii_mode bus pd).events ADIN1300_GE_RGMII_CFG_REG =
      some (rgmiiValueOfMode (resolvedInterface pd)
        (adin_ext_read bus ADIN1300_GE_RGMII_CFG_REG) % 65536) :=
  ⟨config_dev_interface bus pd, config_written bus pd⟩

/-- C9: the extended read is a u16, hence nonnegative as an int; a negative
raw MDIO result is truncated into a valid register value, and the status of
adin_config_rgmii_mode is always the final write status, so the abort
branch never decides the result. -/
theorem c9_ext_read_nonneg_abort_unreachable (bus : Bus) (regnum : Nat) (pd : PhyDevice) :
    (0 : Int) ≤ ((adin_ext_read bus regnum : Nat) : Int) ∧
    ((adin_ext_read bus regnum : Nat) : Int) = bus.readRaw regnum % 65536 ∧
    (adin_config_rgmii_mode bus pd).status =
      bus.writeStatus ADIN1300_GE_RGMII_CFG_REG
        (rgmiiValueOfMode (resolvedInterface pd)
          (adin_ext_read bus ADIN1300_GE_RGMII_CFG_REG) % 65536) := by
  refine ⟨Int.natCast_nonneg _, ?_, config_status bus pd⟩
  unfold adin_ext_read
  omega

lemma phy_modes_caseKey_inj :
    ∀ a, a < 6 → ∀ b, b < 6 →
      (phy_modes a).data.map lowerChar = (phy_modes b).data.map lowerChar → a = b := by
  decide

/-- C3: a present override matching a table name case insensitively
overwrites the interface field with the matched index, whatever the prior
mode was. -/
theorem c3_valid_override_applied (bus : Bus) (pd : PhyDevice) (s : String) (i : Nat)
    (hs : pd.node.phyModeOverride = some s)
    (hi : i < PHY_INTERFACE_MODE_MAX)
    (hm : strcaseEq s (phy_modes i) = true) :
    (adin_config_rgmii_mode bus pd).dev.interface = i := by
  rw [config_dev_interface]
  unfold resolvedInterface adin_get_phy_mode_override
  rw [hs]
  cases hf : (List.range PHY_INTERFACE_MODE_MAX).find?
      (fun j => strcaseEq s (phy_modes j)) with
  | none =>
    exact absurd hm (List.find?_eq_none.mp hf i (List.mem_range.mpr hi))
  | some j =>
    have hpj : strcaseEq s (phy_modes j) = true := by
      simpa using List.find?_some hf
    have hj : j < PHY_INTERFACE_MODE_MAX :=
      List.mem_range.mp (List.mem_of_find?_eq_some hf)
    have hij : j = i := by
      unfold strcaseEq at hpj hm
      have e1 : s.data.map lowerChar = (phy_modes j).data.map lowerChar := eq_of_beq hpj
      have e2 : s.data.map lowerChar = (phy_modes i).data.map lowerChar := eq_of_beq hm
      exact phy_modes_caseKey_inj j hj i hi (e1.symm.trans e2)
    subst hij
    simp [hf]

/-- C4: a present override that matches no table name leaves the interface
mode unchanged, emits a diagnostic, and the RGMII register is still
programmed. -/
theorem c4_unmatched_override_keeps_mode (bus : Bus) (pd : PhyDevice) (s : String)
    (hs : pd.node.phyModeOverride = some s)
    (hn : ∀ i, i < PHY_INTERFACE_MODE_MAX → strcaseEq s (phy_modes i) = false) :
    (adin_config_rgmii_mode bus pd).dev.interface = pd.interface ∧
    (∃ msg, Ev.log msg ∈ (adin_config_rgmii_mode bus pd).events) ∧
    (writtenTo (adin_config_rgmii_mode bus pd).events ADIN1300_GE_RGMII_CFG_REG).isSome = true := by
  have hfind : (List.range PHY_INTERFACE_MODE_MAX).find?
      (fun j => strcaseEq s (phy_modes j)) = none := by
    rw [List.find?_eq_none]
    intro x hx
    simp [hn x (List.mem_range.mp hx)]
  refine ⟨?_, ?_, ?_⟩
  · rw [config_dev_interface]
    unfold resolvedInterface adin_get_phy_mode_override
    simp only [hs, hfind]
    simp
  · refine ⟨"adin_get_phy_mode_override: Error adi,phy-mode-override = "
      ++ s ++ " is not valid", ?_⟩
    rw [config_run]
    unfold adin_get_phy_mode_override
    simp only [hs, hfind]
    simp
  · rw [config_written]
    rfl

/-- C6: with the clock enable property unset, the clock step touches no
register and returns 0. -/
theorem c6_clock_flag_unset_no_access (bus : Bus) (pd : PhyDevice)
    (h : pd.node.clkRcvr125En = false) :
    adin_set_clock_config bus pd = ((0 : Int), ([] : List Ev)) := by
  unfold adin_set_clock_config
  rw [h]
  simp




/-- C7 counterexample: a clock register read failing with code -5 while the
write succeeds yields caller result 0, while a write failing with the same
code -5 yields -5, so a failing read and a failing write with the same
error code are not returned identically. -/
theorem c7_counterexample :
    (adin_set_clock_config busClkReadFail pdClkEn).1 = 0 ∧
    (adin_set_clock_config busClkWriteFail pdClkEn).1 = -5 ∧
    ¬ ((0 : Int) = -5) := by decide

/-- C7 amended: with the clock enable flag set, the caller visible result of
adin_set_clock_config is exactly the status of the final clock register
write; a negative outcome of the initial read is never returned, it is
truncated to 16 bits and used as write data. -/
theorem c7_result_is_write_status (bus : Bus) (pd : PhyDevice)
    (h : pd.node.clkRcvr125En = true) :
    (adin_set_clock_config bus pd).1 =
      bus.writeStatus ADIN1300_GE_CLK_CFG
        ((adin_ext_read bus ADIN1300_GE_CLK_CFG |||
          ADIN1300_GE_CLK_RCVR_125_EN) % 65536) := by
  unfold adin_set_clock_config adin_ext_write
  rw [h]
  simp

/-- C2: evaluation at the failing input. The raw MDIO read of the RGMII
config register fails with -5, yet the fixup handler returns 0 and the
clock config step is attempted, because adin_ext_read truncated the error
to the u16 value 65531. -/
theorem c2_read_error_swallowed :
    busClkReadFail.readRaw ADIN1300_GE_RGMII_CFG_REG = -5 ∧
    adin_ext_read busClkReadFail ADIN1300_GE_RGMII_CFG_REG = 65531 ∧
    (adin1300_phy_fixup busClkReadFail pdClkEn).status = 0 ∧
    Ev.readExt ADIN1300_GE_CLK_CFG ∈ (adin1300_phy_fixup busClkReadFail pdClkEn).events := by
  decide


/-- C10: the override lookup ranges over the whole mode table, so a valid
non RGMII override name is accepted: it becomes the interface mode and the
subsequent write clears the RGMII enable bit. -/
theorem c10_full_table_override_non_rgmii (bus : Bus) (origMode : Nat) :
    (adin_config_rgmii_mode bus (pdOverrideMii origMode)).dev.interface =
      PHY_INTERFACE_MODE_MII ∧
    is_rgmii_mode PHY_INTERFACE_MODE_MII = false ∧
    ∃ v, writtenTo (adin_config_rgmii_mode bus (pdOverrideMii origMode)).events
        ADIN1300_GE_RGMII_CFG_REG = some v ∧ v.testBit 0 = false := by
  have h1 : resolvedInterface (pdOverrideMii origMode) = PHY_INTERFACE_MODE_MII := rfl
  refine ⟨by rw [config_dev_interface, h1], by decide, ?_⟩
  refine ⟨_, config_written bus (pdOverrideMii origMode), ?_⟩
  rw [h1]
  have hval : rgmiiValueOfMode PHY_INTERFACE_MODE_MII
      (adin_ext_read bus ADIN1300_GE_RGMII_CFG_REG) =
      adin_ext_read bus ADIN1300_GE_RGMII_CFG_REG &&& 65534 := by
    simp [rgmiiValueOfMode, is_rgmii_mode, PHY_INTERFACE_MODE_MII,
      PHY_INTERFACE_MODE_RGMII, ADIN1300_GE_RGMII_EN,
      show (65535 ^^^ 1 : Nat) = 65534 from by decide]
  rw [hval, testBit_mod65536 _ _ (by norm_num)]
  simp [Nat.testBit_land, show Nat.testBit 65534 0 = false from by decide]



/-- Witness for C1 at a concrete device resolved to RGMII-ID and an all
zero bus. -/
theorem c1_witness :
    is_rgmii_mode (adin_config_rgmii_mode busZero pdRgmiiId).dev.interface = true ∧
    (∃ v, writtenTo (adin_config_rgmii_mode busZero pdRgmiiId).events ADIN1300_GE_RGMII_CFG_REG = some v ∧
      v.testBit 0 = true ∧
      ((adin_config_rgmii_mode busZero pdRgmiiId).dev.interface = PHY_INTERFACE_MODE_RGMII →
        v.testBit 2 = false ∧ v.testBit 1 = false) ∧
      ((adin_config_rgmii_mode busZero pdRgmiiId).dev.interface = PHY_INTERFACE_MODE_RGMII_ID →
        v.testBit 2 = true ∧ v.testBit 1 = true) ∧
      ((adin_config_rgmii_mode busZero pdRgmiiId).dev.interface = PHY_INTERFACE_MODE_RGMII_RXID →
        v.testBit 2 = true ∧ v.testBit 1 = false) ∧
      ((adin_config_rgmii_mode busZero pdRgmiiId).dev.interface = PHY_INTERFACE_MODE_RGMII_TXID →
        v.testBit 2 = false ∧ v.testBit 1 = true)) :=
  ⟨by decide, c1_rgmii_delay_bits_match_table busZero pdRgmiiId (by decide)⟩

/-- Witness for C3 at the override string RGMII-ID in capitals against the
lower case table name at index 3, with prior mode RGMII. -/
theorem c3_witness :
    pdPrior2OverrideRgmiiId.node.phyModeOverride = some "RGMII-ID" ∧
    3 < PHY_INTERFACE_MODE_MAX ∧
    strcaseEq "RGMII-ID" (phy_modes 3) = true ∧
    (adin_config_rgmii_mode busZero pdPrior2OverrideRgmiiId).dev.interface = 3 :=
  ⟨rfl, by decide, by decide,
   c3_valid_override_applied busZero pdPrior2OverrideRgmiiId "RGMII-ID" 3 rfl
     (by decide) (by decide)⟩

/-- Witness for C4 at the unrecognized override string bogus. -/
theorem c4_witness :
    pdOverrideBogus.node.phyModeOverride = some "bogus" ∧
    (∀ i, i < PHY_INTERFACE_MODE_MAX → strcaseEq "bogus" (phy_modes i) = false) ∧
    ((adin_config_rgmii_mode busZero pdOverrideBogus).dev.interface = pdOverrideBogus.interface ∧
     (∃ msg, Ev.log msg ∈ (adin_config_rgmii_mode busZero pdOverrideBogus).events) ∧
     (writtenTo (adin_config_rgmii_mode busZero pdOverrideBogus).events ADIN1300_GE_RGMII_CFG_REG).isSome = true) :=
  ⟨rfl, by decide,
   c4_unmatched_override_keeps_mode busZero pdOverrideBogus "bogus" rfl (by decide)⟩

/-- Witness for C5 at a device with the non RGMII mode 0 and an all zero
bus. -/
theorem c5_witness :
    is_rgmii_mode (adin_config_rgmii_mode busZero pdMode0).dev.interface = false ∧
    (∃ v, writtenTo (adin_config_rgmii_mode busZero pdMode0).events ADIN1300_GE_RGMII_CFG_REG = some v ∧
      v.testBit 0 = false ∧
      ∀ k, k ≠ 0 →
        v.testBit k = (adin_ext_read busZero ADIN1300_GE_RGMII_CFG_REG).testBit k) :=
  ⟨by decide, c5_non_rgmii_clears_enable_only busZero pdMode0 (by decide)⟩

/-- Witness for C6 at a device with the clock enable property unset. -/
theorem c6_witness :
    pdMode0.node.clkRcvr125En = false ∧
    adin_set_clock_config busZero pdMode0 = ((0 : Int), ([] : List Ev)) :=
  ⟨rfl, c6_clock_flag_unset_no_access busZero pdMode0 rfl⟩

/-- Witness for the amended C7 at a failing write: the result is the write
status. -/
theorem c7_witness :
    pdClkEn.node.clkRcvr125En = true ∧
    (adin_set_clock_config busClkWriteFail pdClkEn).1 =
      busClkWriteFail.writeStatus ADIN1300_GE_CLK_CFG
        ((adin_ext_read busClkWriteFail ADIN1300_GE_CLK_CFG |||
          ADIN1300_GE_CLK_RCVR_125_EN) % 65536) :=
  ⟨rfl, c7_result_is_write_status busClkWriteFail pdClkEn rfl⟩
